import Mathlib

/-!
Verification of the change-grouping and rendering core of the changelog-ci
repository.  The definitions below are a shallow embedding of the current
implementation in scripts/builders.py together with the configuration shape
from scripts/config.py.  Network retrieval, YAML parsing, git plumbing and
the GitHub publishing calls are external collaborators: they enter the
embedding only as already-fetched record lists and as an abstract list of
publish actions.
-/

namespace ChangelogCI

/-- Changelog file extension tag for Markdown (scripts/config.py line 16). -/
def MARKDOWN_FILE : String := "md"

/-- Changelog file extension tag for RestructuredText (scripts/config.py line 17). -/
def RESTRUCTUREDTEXT_FILE : String := "rst"

/-- A merged pull-request record as assembled by
PullRequestChangelogBuilder._get_changes_after_last_release
(scripts/builders.py lines 135-140): title, number, html url and label names. -/
structure PullRequest where
  number : Nat
  url : String
  title : String
  labels : List String
deriving DecidableEq

/-- A commit record as assembled by
CommitMessageChangelogBuilder._get_changes_after_last_release
(scripts/builders.py lines 266-270): sha, message and html url. -/
structure Commit where
  sha : String
  message : String
  url : String
deriving DecidableEq

/-- One raw element of the GitHub list-commits API response, restricted to the
fields the source reads (scripts/builders.py lines 259-269). -/
structure RawCommit where
  sha : String
  message : String
  html_url : String
deriving DecidableEq

/-- One entry of the user-provided group configuration: a section title and the
label names that route a pull request into the section. -/
structure GroupConfig where
  title : String
  labels : List String
deriving DecidableEq

/-- The configuration fields consumed by the changelog builders
(scripts/config.py, class Configuration).  Fields used only by validation or
by the publishing glue are out of scope and omitted. -/
structure Configuration where
  header_prefix : String
  group_config : List GroupConfig
  include_unlabeled_changes : Bool
  unlabeled_group_title : String
  changelog_filename : String
deriving DecidableEq

/-- Configuration.changelog_file_type (scripts/config.py lines 76-80): derived
from the extension of changelog_filename. -/
def Configuration.changelog_file_type (config : Configuration) : String :=
  if config.changelog_filename.endsWith ".rst" then RESTRUCTUREDTEXT_FILE
  else MARKDOWN_FILE

/-- Python string repetition, as in the underline expressions of
scripts/builders.py lines 164, 196 and 210. -/
def string_repeat (c : Char) (n : Nat) : String :=
  String.mk (List.replicate n c)

/-- PullRequestChangelogBuilder._get_changelog_line (scripts/builders.py lines
85-95): one changelog line per pull request, chosen by file type. -/
def PullRequestChangelogBuilder.get_changelog_line
    (file_type : String) (item : PullRequest) : String :=
  if file_type = MARKDOWN_FILE then
    "* [#" ++ toString item.number ++ "](" ++ item.url ++ "): " ++ item.title ++ "\n"
  else
    "* `#" ++ toString item.number ++ " <" ++ item.url ++ ">`__: " ++ item.title ++ "\n"

/-- CommitMessageChangelogBuilder._get_changelog_line (scripts/builders.py lines
227-237): one changelog line per commit; the sha is sliced to its first seven
characters in both templates. -/
def CommitMessageChangelogBuilder.get_changelog_line
    (file_type : String) (item : Commit) : String :=
  if file_type = MARKDOWN_FILE then
    "* [" ++ item.sha.take 7 ++ "](" ++ item.url ++ "): " ++ item.message ++ "\n"
  else
    "* `" ++ item.sha.take 7 ++ " <" ++ item.url ++ ">`__: " ++ item.message ++ "\n"

/-- The label test of scripts/builders.py lines 181-183: some label of the group
configuration occurs among the labels of the pull request. -/
def label_match (config : GroupConfig) (pull_request : PullRequest) : Bool :=
  config.labels.any (fun label => pull_request.labels.contains label)

/-- The inner loop of PullRequestChangelogBuilder.parse_changelog
(scripts/builders.py lines 176-189): the first argument is the snapshot
pull_request_list taken before the scan, the second is the live new_changes
list.  Matching pull requests are collected in scan order and each match is
removed from new_changes; Python list.remove deletes the first equal element,
which is what List.erase does. -/
def scan_pull_requests (config : GroupConfig) :
    List PullRequest → List PullRequest → List PullRequest × List PullRequest
  | [], new_changes => ([], new_changes)
  | pull_request :: pull_request_list, new_changes =>
    if label_match config pull_request then
      let rest := scan_pull_requests config pull_request_list (new_changes.erase pull_request)
      (pull_request :: rest.1, rest.2)
    else
      scan_pull_requests config pull_request_list new_changes

/-- The outer loop of PullRequestChangelogBuilder.parse_changelog
(scripts/builders.py lines 169-198) at the level of record buckets: the
(rule, bucket) pairs in rule order together with the final new_changes.  The
length test mirrors the break on an empty new_changes (lines 171-172); each
rule scans a snapshot of the current new_changes (line 176). -/
def group_loop : List GroupConfig → List PullRequest →
    List (GroupConfig × List PullRequest) × List PullRequest
  | [], new_changes => ([], new_changes)
  | config :: group_config, new_changes =>
    if new_changes.length = 0 then ([], new_changes)
    else
      let scanned := scan_pull_requests config new_changes new_changes
      let rest := group_loop group_config scanned.2
      ((config, scanned.1) :: rest.1, rest.2)

/-- The items_string accumulated by the inner loop (scripts/builders.py lines
174, 184-186): the concatenation, in scan order, of the changelog lines of a
bucket. -/
def items_string (file_type : String) (bucket : List PullRequest) : String :=
  String.join (bucket.map (PullRequestChangelogBuilder.get_changelog_line file_type))

/-- The rule-group section heading (scripts/builders.py lines 191-197).  The
RestructuredText branch reproduces the source literally: the source writes a
space between the newline and the dashes, so the underline line of a rule
group starts with one space. -/
def group_section_string (file_type : String) (title : String) : String :=
  if file_type = MARKDOWN_FILE then
    "\n#### " ++ title ++ "\n\n"
  else
    "\n" ++ title ++ "\n " ++ string_repeat '-' title.length ++ "\n\n"

/-- The unlabeled-group section heading (scripts/builders.py lines 203-211);
here the RestructuredText underline has no leading space. -/
def unlabeled_section_string (file_type : String) (title : String) : String :=
  if file_type = MARKDOWN_FILE then
    "\n#### " ++ title ++ "\n\n"
  else
    "\n" ++ title ++ "\n" ++ string_repeat '-' title.length ++ "\n\n"

/-- The document header (scripts/builders.py lines 161-164). -/
def changelog_header (file_type : String) (header : String) : String :=
  if file_type = MARKDOWN_FILE then
    "# " ++ header ++ "\n\n"
  else
    header ++ "\n" ++ string_repeat '=' header.length ++ "\n\n"

/-- The section emission of the outer loop (scripts/builders.py lines 191-198):
a section is appended only when its items_string is non-empty. -/
def sections_fold (file_type : String)
    (groups : List (GroupConfig × List PullRequest)) (changelog_string : String) : String :=
  groups.foldl
    (fun acc g =>
      let s := items_string file_type g.2
      if s = "" then acc else acc ++ group_section_string file_type g.1.title ++ s)
    changelog_string

/-- PullRequestChangelogBuilder.parse_changelog (scripts/builders.py lines
155-221).  new_changes is the deep copy of the stored change list (line 158);
the branch on a non-empty group_config is the Python truthiness test of line
168; the unlabeled branch is lines 200-214 and the flat branch is lines
215-219. -/
def PullRequestChangelogBuilder.parse_changelog
    (config : Configuration) (release_version : String)
    (file_type : String) (change_list : List PullRequest) : String :=
  let new_changes := change_list
  let header := config.header_prefix ++ " " ++ release_version
  let changelog_string := changelog_header file_type header
  if !config.group_config.isEmpty then
    let looped := group_loop config.group_config new_changes
    let sectioned := sections_fold file_type looped.1 changelog_string
    if !looped.2.isEmpty && config.include_unlabeled_changes then
      sectioned ++ unlabeled_section_string file_type config.unlabeled_group_title ++
        items_string file_type looped.2
    else
      sectioned
  else
    changelog_string ++ items_string file_type new_changes

/-- CommitMessageChangelogBuilder.parse_changelog (scripts/builders.py lines
287-301): header followed by one line per commit, with no grouping. -/
def CommitMessageChangelogBuilder.parse_changelog
    (config : Configuration) (release_version : String)
    (file_type : String) (change_list : List Commit) : String :=
  let new_changes := change_list
  let header := config.header_prefix ++ " " ++ release_version
  let changelog_string := changelog_header file_type header
  changelog_string ++
    String.join (new_changes.map (CommitMessageChangelogBuilder.get_changelog_line file_type))

/-- The response-processing loop of
CommitMessageChangelogBuilder._get_changes_after_last_release
(scripts/builders.py lines 258-273): build the commit record list, excluding
any commit whose message starts with one of the two merge prefixes. -/
def commit_items : List RawCommit → List Commit
  | [] => []
  | item :: response_data =>
    if !(item.message.startsWith "Merge pull request #" ||
        item.message.startsWith "Merge branch") then
      { sha := item.sha, message := item.message, url := item.html_url } ::
        commit_items response_data
    else
      commit_items response_data

/-- ChangelogBuilderBase.build (scripts/builders.py lines 69-79), parameterized
by the record type and the parse_changelog of the concrete builder.  The
statement raise SystemExit(0) on an empty change list is modelled as
Except.error carrying the process exit code zero; otherwise the builder
renders for the configured file type and returns the changelog string. -/
def ChangelogBuilderBase.build {α : Type} (parse : String → List α → String)
    (changelog_file_type : String) (change_list : List α) : Except Nat String :=
  if change_list.isEmpty then Except.error 0
  else Except.ok (parse changelog_file_type change_list)

/-- The publishing operations of the action (file write, commit and push, pull
request creation, comment), kept abstract. -/
inductive PublishAction where
  | write_file (content : String)
  | commit_and_push (content : String)
  | open_pull_request (body : String)
  | post_comment (body : String)
deriving DecidableEq

/-- Modelled from the spec: the automation wrapper that drives a build is not
part of src/scripts (only the builder classes are).  Per spec section 4.3 the
publisher collaborators are invoked only on the transition from Rendered to
Done, after build has returned a rendered string; the SystemExit raised inside
build for an empty change list propagates, so in that case no publisher call
happens and the process exits cleanly with status zero. -/
def run_action {α : Type} (parse : String → List α → String)
    (changelog_file_type : String) (change_list : List α)
    (publish : String → List PublishAction) : Except Nat (String × List PublishAction) :=
  match ChangelogBuilderBase.build parse changelog_file_type change_list with
  | Except.error code => Except.error code
  | Except.ok changelog_string => Except.ok (changelog_string, publish changelog_string)

/-- The builder state visible to a caller of parse_changelog: the stored
configuration, release version and change list. -/
structure BuilderState where
  config : Configuration
  release_version : String
  change_list : List PullRequest
deriving DecidableEq

/-- Method-level view of PullRequestChangelogBuilder.parse_changelog.  The
method begins with a deep copy of the stored change list (scripts/builders.py
line 158), so all removals during partitioning hit the working copy only; the
builder state a caller observes after the call is therefore the input state,
which this embedding returns alongside the rendered string. -/
def parse_changelog_method (self : BuilderState) (file_type : String) :
    String × BuilderState :=
  (PullRequestChangelogBuilder.parse_changelog self.config self.release_version
    file_type self.change_list, self)

/-- The emitted partition underlying the grouped branch of
PullRequestChangelogBuilder.parse_changelog: section titles with their record
buckets in emission order — rule buckets in rule order with empty buckets
skipped (the items_string test of line 191), followed by the unlabeled group
when new_changes is still non-empty and the option is on (line 200). -/
def partition_groups (config : Configuration) (change_list : List PullRequest) :
    List (String × List PullRequest) :=
  let looped := group_loop config.group_config change_list
  (looped.1.filter (fun g => !g.2.isEmpty)).map (fun g => (g.1.title, g.2)) ++
    (if !looped.2.isEmpty && config.include_unlabeled_changes then
      [(config.unlabeled_group_title, looped.2)]
    else [])

/-- The grouping loop with the short-circuit removed: the reference semantics
against which the spec asks the break of scripts/builders.py lines 171-172 to
be compared.  Every rule is evaluated even when new_changes is already empty. -/
def group_loop_no_break : List GroupConfig → List PullRequest →
    List (GroupConfig × List PullRequest) × List PullRequest
  | [], new_changes => ([], new_changes)
  | config :: group_config, new_changes =>
    let scanned := scan_pull_requests config new_changes new_changes
    let rest := group_loop_no_break group_config scanned.2
    ((config, scanned.1) :: rest.1, rest.2)

/-- parse_changelog with group_loop_no_break in place of group_loop: the
no-short-circuit rendering the spec compares against. -/
def parse_changelog_no_break
    (config : Configuration) (release_version : String)
    (file_type : String) (change_list : List PullRequest) : String :=
  let new_changes := change_list
  let header := config.header_prefix ++ " " ++ release_version
  let changelog_string := changelog_header file_type header
  if !config.group_config.isEmpty then
    let looped := group_loop_no_break config.group_config new_changes
    let sectioned := sections_fold file_type looped.1 changelog_string
    if !looped.2.isEmpty && config.include_unlabeled_changes then
      sectioned ++ unlabeled_section_string file_type config.unlabeled_group_title ++
        items_string file_type looped.2
    else
      sectioned
  else
    changelog_string ++ items_string file_type new_changes

/-! ### Lemmas about the scan loop -/

/-- Scanning a snapshot while erasing the matches from a list that extends the
snapshot by an already-unmatched block: the collected bucket is the matching
part of the snapshot in order, and the live list keeps the block followed by
the non-matching part of the snapshot. -/
theorem scan_pull_requests_append (config : GroupConfig) (s : List PullRequest) :
    ∀ pre : List PullRequest, (∀ x ∈ pre, label_match config x = false) →
      scan_pull_requests config s (pre ++ s) =
        (s.filter (fun x => label_match config x),
          pre ++ s.filter (fun x => !label_match config x)) := by
  induction s with
  | nil => intro pre _; simp [scan_pull_requests]
  | cons a s ih =>
    intro pre hpre
    by_cases h : label_match config a = true
    · have hnotin : a ∉ pre := by
        intro hmem
        rw [hpre a hmem] at h
        exact Bool.false_ne_true h
      have herase : (pre ++ a :: s).erase a = pre ++ s := by
        rw [List.erase_append_right _ hnotin, List.erase_cons_head]
      simp only [scan_pull_requests, h, if_true, herase, ih pre hpre,
        List.filter_cons, Bool.not_true, if_false]
      simp [h]
    · have hfalse : label_match config a = false := Bool.eq_false_iff.mpr h
      have hpre2 : ∀ x ∈ pre ++ [a], label_match config x = false := by
        intro x hx
        rcases List.mem_append.mp hx with hx1 | hx2
        · exact hpre x hx1
        · rw [List.mem_singleton.mp hx2]; exact hfalse
      have ih2 := ih (pre ++ [a]) hpre2
      rw [List.append_assoc, List.singleton_append] at ih2
      simp only [scan_pull_requests, hfalse, if_false, ih2, List.filter_cons]
      simp [hfalse, List.append_assoc]

/-- The inner loop as run by the source, where the snapshot and the live list
start out equal: the bucket is the matching sublist, the new new_changes is
the non-matching sublist, both in input order. -/
theorem scan_pull_requests_self (config : GroupConfig) (l : List PullRequest) :
    scan_pull_requests config l l =
      (l.filter (fun x => label_match config x),
        l.filter (fun x => !label_match config x)) := by
  have h := scan_pull_requests_append config l [] (by intro x hx; cases hx)
  simpa using h

/-! ### Lemmas about the outer grouping loop -/

/-- The final new_changes after the outer loop: exactly the input records that
match none of the rules, in input order. -/
theorem group_loop_remaining (group_config : List GroupConfig) :
    ∀ l : List PullRequest,
      (group_loop group_config l).2 =
        l.filter (fun pr => group_config.all (fun config => !label_match config pr)) := by
  induction group_config with
  | nil => intro l; simp [group_loop]
  | cons c rest ih =>
    intro l
    by_cases h : l.length = 0
    · have hl : l = [] := List.length_eq_zero.mp h
      subst hl
      simp [group_loop]
    · simp only [group_loop, if_neg h, scan_pull_requests_self, ih, List.filter_filter]
      congr 1
      funext pr
      simp [List.all_cons, Bool.and_comm]

/-- Every rule listed in the outer loop's output belongs to the configured rule
list. -/
theorem group_loop_mem_config (group_config : List GroupConfig) :
    ∀ l : List PullRequest, ∀ g ∈ (group_loop group_config l).1, g.1 ∈ group_config := by
  induction group_config with
  | nil => intro l g hg; simp [group_loop] at hg
  | cons c rest ih =>
    intro l g hg
    by_cases h : l.length = 0
    · simp [group_loop, h] at hg
    · simp only [group_loop, if_neg h, List.mem_cons] at hg
      rcases hg with hg | hg
      · rw [hg]; exact List.mem_cons_self c rest
      · exact List.mem_cons_of_mem c (ih _ g hg)

/-- Every bucket the outer loop produces is a sublist of the input record list:
buckets preserve the input order and never duplicate a position. -/
theorem group_loop_bucket_sublist (group_config : List GroupConfig) :
    ∀ l : List PullRequest, ∀ g ∈ (group_loop group_config l).1, List.Sublist g.2 l := by
  induction group_config with
  | nil => intro l g hg; simp [group_loop] at hg
  | cons c rest ih =>
    intro l g hg
    by_cases h : l.length = 0
    · simp [group_loop, h] at hg
    · simp only [group_loop, if_neg h, scan_pull_requests_self, List.mem_cons] at hg
      rcases hg with hg | hg
      · rw [hg]; exact List.filter_sublist l
      · exact List.Sublist.trans (ih _ g hg) (List.filter_sublist l)

/-- Every record placed in a rule's bucket matches that rule. -/
theorem group_loop_bucket_matches (group_config : List GroupConfig) :
    ∀ l : List PullRequest, ∀ g ∈ (group_loop group_config l).1,
      ∀ pr ∈ g.2, label_match g.1 pr = true := by
  induction group_config with
  | nil => intro l g hg; simp [group_loop] at hg
  | cons c rest ih =>
    intro l g hg pr hpr
    by_cases h : l.length = 0
    · simp [group_loop, h] at hg
    · simp only [group_loop, if_neg h, scan_pull_requests_self, List.mem_cons] at hg
      rcases hg with hg | hg
      · subst hg
        exact (List.mem_filter.mp hpr).2
      · exact ih _ g hg pr hpr

/-- A record in a later rule's bucket matches no earlier rule: first match
wins. -/
theorem group_loop_pairwise (group_config : List GroupConfig) :
    ∀ l : List PullRequest,
      (group_loop group_config l).1.Pairwise
        (fun g h => ∀ pr ∈ h.2, label_match g.1 pr = false) := by
  induction group_config with
  | nil => intro l; simp [group_loop]
  | cons c rest ih =>
    intro l
    by_cases h : l.length = 0
    · simp [group_loop, h]
    · simp only [group_loop, if_neg h, scan_pull_requests_self]
      refine List.Pairwise.cons ?_ (ih _)
      intro g hg pr hpr
      have hmem : pr ∈ l.filter (fun x => !label_match c x) :=
        (group_loop_bucket_sublist rest _ g hg).subset hpr
      have := (List.mem_filter.mp hmem).2
      simpa using this

/-- The buckets together with the final new_changes are a permutation of the
input record list: every record, counted with multiplicity, lands in exactly
one place. -/
theorem group_loop_perm (group_config : List GroupConfig) :
    ∀ l : List PullRequest,
      List.Perm
        (((group_loop group_config l).1.map (fun g => g.2)).flatten ++
          (group_loop group_config l).2) l := by
  induction group_config with
  | nil => intro l; simp [group_loop]
  | cons c rest ih =>
    intro l
    by_cases h : l.length = 0
    · have hl : l = [] := List.length_eq_zero.mp h
      subst hl
      simp [group_loop]
    · simp only [group_loop, if_neg h, scan_pull_requests_self, List.map_cons,
        List.flatten_cons]
      rw [List.append_assoc]
      refine List.Perm.trans (List.Perm.append_left _ (ih _)) ?_
      exact List.filter_append_perm _ l

/-! ### Lemmas comparing the loop with and without the short-circuit -/

/-- Without the break, an empty new_changes just yields one empty bucket per
remaining rule. -/
theorem group_loop_no_break_nil (group_config : List GroupConfig) :
    group_loop_no_break group_config [] =
      (group_config.map (fun config => (config, ([] : List PullRequest))), []) := by
  induction group_config with
  | nil => rfl
  | cons c rest ih => simp [group_loop_no_break, scan_pull_requests, ih]

/-- Empty buckets survive no emptiness filter. -/
theorem filter_empty_buckets (group_config : List GroupConfig) :
    (group_config.map (fun config => (config, ([] : List PullRequest)))).filter
      (fun g => !g.2.isEmpty) = [] := by
  induction group_config with
  | nil => rfl
  | cons c rest ih => simp [ih]

/-- Folding the section emission over empty buckets leaves the accumulated
changelog string unchanged, because the items_string of an empty bucket is
empty. -/
theorem sections_fold_empty_buckets (file_type : String) (group_config : List GroupConfig) :
    ∀ acc : String,
      sections_fold file_type
        (group_config.map (fun config => (config, ([] : List PullRequest)))) acc = acc := by
  induction group_config with
  | nil => intro acc; rfl
  | cons c rest ih =>
    intro acc
    simpa [sections_fold, items_string] using ih acc

/-- The loop with the break and the loop without it agree on the emitted
buckets (those that are non-empty), on the final new_changes, and on every
section fold. -/
theorem group_loop_no_break_equiv (group_config : List GroupConfig) :
    ∀ l : List PullRequest,
      (group_loop group_config l).1.filter (fun g => !g.2.isEmpty) =
          (group_loop_no_break group_config l).1.filter (fun g => !g.2.isEmpty) ∧
        (group_loop group_config l).2 = (group_loop_no_break group_config l).2 ∧
        ∀ (file_type acc : String),
          sections_fold file_type (group_loop group_config l).1 acc =
            sections_fold file_type (group_loop_no_break group_config l).1 acc := by
  induction group_config with
  | nil => intro l; exact ⟨rfl, rfl, fun _ _ => rfl⟩
  | cons c rest ih =>
    intro l
    by_cases h : l.length = 0
    · have hl : l = [] := List.length_eq_zero.mp h
      subst hl
      refine ⟨?_, ?_, ?_⟩
      · rw [group_loop_no_break_nil]
        rw [filter_empty_buckets (c :: rest)]
        rfl
      · rw [group_loop_no_break_nil]
        rfl
      · intro file_type acc
        rw [group_loop_no_break_nil]
        exact (sections_fold_empty_buckets file_type (c :: rest) acc).symm
    · obtain ⟨i1, i2, i3⟩ := ih (scan_pull_requests c l l).2
      refine ⟨?_, ?_, ?_⟩
      · simp only [group_loop, group_loop_no_break, if_neg h, List.filter_cons, i1]
      · simp only [group_loop, group_loop_no_break, if_neg h, i2]
      · intro file_type acc
        simp only [group_loop, group_loop_no_break, if_neg h, sections_fold,
          List.foldl_cons]
        exact i3 file_type _

/-! ### Claim theorems -/

/-- C1: for every record list and non-empty rule list the grouping pass is a
partition: the buckets joined with the final remaining pool are a permutation
of the input (each record, with multiplicity, is consumed exactly once, so no
record sits in two buckets), each bucket is an input-order sublist, every
bucketed record matches its bucket's rule, and a record in a later bucket
matches no earlier rule — first matching rule wins. -/
theorem grouping_assigns_each_record_once (group_config : List GroupConfig)
    (change_list : List PullRequest) (_hne : group_config ≠ []) :
    List.Perm
        (((group_loop group_config change_list).1.map (fun g => g.2)).flatten ++
          (group_loop group_config change_list).2) change_list ∧
      (∀ g ∈ (group_loop group_config change_list).1, List.Sublist g.2 change_list) ∧
      (∀ g ∈ (group_loop group_config change_list).1, ∀ pr ∈ g.2,
        label_match g.1 pr = true) ∧
      (group_loop group_config change_list).1.Pairwise
        (fun g h => ∀ pr ∈ h.2, label_match g.1 pr = false) :=
  ⟨group_loop_perm group_config change_list,
    group_loop_bucket_sublist group_config change_list,
    group_loop_bucket_matches group_config change_list,
    group_loop_pairwise group_config change_list⟩

def c1_rules : List GroupConfig :=
  [GroupConfig.mk "Bugs" ["bug"], GroupConfig.mk "Docs" ["docs"]]

def c1_records : List PullRequest :=
  [PullRequest.mk 3 "u3" "Fix X" ["bug", "docs"], PullRequest.mk 5 "u5" "Add Y" ["docs"]]

/-- Witness for C1 at a concrete rule list and record list. -/
theorem grouping_assigns_each_record_once_witness :
    c1_rules ≠ [] ∧
      List.Perm
        (((group_loop c1_rules c1_records).1.map (fun g => g.2)).flatten ++
          (group_loop c1_rules c1_records).2) c1_records :=
  ⟨by simp [c1_rules],
    (grouping_assigns_each_record_once c1_rules c1_records (by simp [c1_rules])).1⟩

/-- C2: with a non-empty rule list the final new_changes is exactly the list of
records matching no rule, in input order; when include_unlabeled_changes is
true and such records exist they form the one final emitted group, titled with
the configured unlabeled title; when the option is false a record matching no
rule is a member of no emitted group. -/
theorem unlabeled_group_emission (config : Configuration)
    (change_list : List PullRequest) (_hne : config.group_config ≠ []) :
    (group_loop config.group_config change_list).2 =
        change_list.filter
          (fun pr => config.group_config.all (fun c => !label_match c pr)) ∧
      (config.include_unlabeled_changes = true →
        (group_loop config.group_config change_list).2 ≠ [] →
        (partition_groups config change_list).getLast? =
          some (config.unlabeled_group_title,
            (group_loop config.group_config change_list).2)) ∧
      (config.include_unlabeled_changes = false →
        ∀ pr : PullRequest, (∀ c ∈ config.group_config, label_match c pr = false) →
          ∀ g ∈ partition_groups config change_list, pr ∉ g.2) := by
  refine ⟨group_loop_remaining config.group_config change_list, ?_, ?_⟩
  · intro hinc hrem
    have hcond : (!(group_loop config.group_config change_list).2.isEmpty &&
        config.include_unlabeled_changes) = true := by
      simp [hinc, hrem]
    simp only [partition_groups, hcond, if_true]
    exact List.getLast?_concat _
  · intro hinc pr hpr g hg hmem
    have hcond : (!(group_loop config.group_config change_list).2.isEmpty &&
        config.include_unlabeled_changes) = false := by
      simp [hinc]
    have hpg : partition_groups config change_list =
        ((group_loop config.group_config change_list).1.filter
          (fun g => !g.2.isEmpty)).map (fun g => (g.1.title, g.2)) := by
      simp [partition_groups, hcond]
    rw [hpg] at hg
    obtain ⟨g0, hg0, hmap⟩ := List.mem_map.mp hg
    have hg0mem := (List.mem_filter.mp hg0).1
    have hpr2 : pr ∈ g0.2 := by
      have hsnd : g.2 = g0.2 := by rw [← hmap]
      rw [hsnd] at hmem
      exact hmem
    have hmatch := group_loop_bucket_matches config.group_config change_list g0 hg0mem pr hpr2
    have hfalse := hpr g0.1 (group_loop_mem_config config.group_config change_list g0 hg0mem)
    rw [hmatch] at hfalse
    exact Bool.noConfusion hfalse

def c2_config : Configuration :=
  Configuration.mk "Version:" [GroupConfig.mk "Bugs" ["bug"]] true "Other Changes"
    "CHANGELOG.md"

def c2_records : List PullRequest :=
  [PullRequest.mk 3 "u3" "Fix X" ["bug"], PullRequest.mk 5 "u5" "Add Y" []]

/-- Witness for C2 at a concrete configuration and record list. -/
theorem unlabeled_group_emission_witness :
    c2_config.group_config ≠ [] ∧
      (group_loop c2_config.group_config c2_records).2 =
        c2_records.filter
          (fun pr => c2_config.group_config.all (fun c => !label_match c pr)) :=
  ⟨by simp [c2_config],
    (unlabeled_group_emission c2_config c2_records (by simp [c2_config])).1⟩

/-- C3: the RestructuredText rule-group heading produced by parse_changelog
writes a space at the start of the underline line, so that line is one
character longer than the title: at the input below the title Bugs of length
four is underlined by the five-character line consisting of a space and four
dashes, while the sibling unlabeled-group heading and the document header obey
the equal-length rule. -/
theorem rst_group_heading_underline_mismatch :
    PullRequestChangelogBuilder.parse_changelog
        (Configuration.mk "Version:" [GroupConfig.mk "Bugs" ["bug"]] true "Other Changes"
          "CHANGELOG.rst")
        "1.0.0" RESTRUCTUREDTEXT_FILE [PullRequest.mk 3 "u3" "Fix X" ["bug"]] =
      "Version: 1.0.0\n==============\n\n\nBugs\n ----\n\n* `#3 <u3>`__: Fix X\n" ∧
    group_section_string RESTRUCTUREDTEXT_FILE "Bugs" = "\nBugs\n ----\n\n" ∧
    unlabeled_section_string RESTRUCTUREDTEXT_FILE "Bugs" = "\nBugs\n----\n\n" ∧
    (" ----").length = ("Bugs").length + 1 :=
  ⟨by decide, by decide, by decide, by decide⟩

/-- C4: with an empty rule list the rendered document is the header followed by
one changelog line per record in input order, with no section headings. -/
theorem empty_group_config_flat_output (config : Configuration)
    (release_version file_type : String) (change_list : List PullRequest)
    (h : config.group_config = []) :
    PullRequestChangelogBuilder.parse_changelog config release_version file_type
        change_list =
      changelog_header file_type (config.header_prefix ++ " " ++ release_version) ++
        items_string file_type change_list := by
  simp [PullRequestChangelogBuilder.parse_changelog, h]

def c4_config : Configuration :=
  Configuration.mk "Version:" [] true "Other Changes" "CHANGELOG.md"

/-- Witness for C4: the exact Markdown document of the spec scenario. -/
theorem empty_group_config_flat_output_witness :
    c4_config.group_config = [] ∧
      PullRequestChangelogBuilder.parse_changelog c4_config "1.2.0" MARKDOWN_FILE
          [PullRequest.mk 3 "u3" "Fix X" [], PullRequest.mk 5 "u5" "Add Y" []] =
        "# Version: 1.2.0\n\n* [#3](u3): Fix X\n* [#5](u5): Add Y\n" :=
  ⟨rfl,
    (empty_group_config_flat_output c4_config "1.2.0" MARKDOWN_FILE
        [PullRequest.mk 3 "u3" "Fix X" [], PullRequest.mk 5 "u5" "Add Y" []] rfl).trans
      (by decide)⟩

/-- C5: every commit changelog line shows the sha sliced to its first seven
characters, in the Markdown and in the RestructuredText template alike, while
every pull-request line shows the full number; the concrete conjuncts
instantiate this at a sixteen-character sha (seven characters survive) and a
nine-digit pull-request number (all nine digits survive). -/
theorem identifier_truncation (file_type : String) (item : Commit) (pr : PullRequest) :
    CommitMessageChangelogBuilder.get_changelog_line file_type item =
        (if file_type = MARKDOWN_FILE then
          "* [" ++ item.sha.take 7 ++ "](" ++ item.url ++ "): " ++ item.message ++ "\n"
        else
          "* `" ++ item.sha.take 7 ++ " <" ++ item.url ++ ">`__: " ++ item.message ++ "\n") ∧
      PullRequestChangelogBuilder.get_changelog_line file_type pr =
        (if file_type = MARKDOWN_FILE then
          "* [#" ++ toString pr.number ++ "](" ++ pr.url ++ "): " ++ pr.title ++ "\n"
        else
          "* `#" ++ toString pr.number ++ " <" ++ pr.url ++ ">`__: " ++ pr.title ++ "\n") ∧
      CommitMessageChangelogBuilder.get_changelog_line MARKDOWN_FILE
          (Commit.mk "0123456789abcdef" "msg" "u") = "* [0123456](u): msg\n" ∧
      CommitMessageChangelogBuilder.get_changelog_line RESTRUCTUREDTEXT_FILE
          (Commit.mk "0123456789abcdef" "msg" "u") = "* `0123456 <u>`__: msg\n" ∧
      PullRequestChangelogBuilder.get_changelog_line MARKDOWN_FILE
          (PullRequest.mk 123456789 "u" "t" []) = "* [#123456789](u): t\n" :=
  ⟨rfl, rfl, by decide, by decide, by decide⟩

/-- C6: a build whose change source returns zero records stops with the clean
SystemExit of code zero: no changelog string is produced and the surrounding
action performs no publish operation. -/
theorem build_no_changes_clean_exit {α : Type} (parse : String → List α → String)
    (changelog_file_type : String) (change_list : List α)
    (publish : String → List PublishAction) (h : change_list = []) :
    ChangelogBuilderBase.build parse changelog_file_type change_list =
        Except.error 0 ∧
      run_action parse changelog_file_type change_list publish = Except.error 0 := by
  subst h
  exact ⟨rfl, rfl⟩

/-- Witness for C6 at the empty pull-request list. -/
theorem build_no_changes_clean_exit_witness :
    ([] : List PullRequest) = [] ∧
      ChangelogBuilderBase.build (fun _ _ => "x") "md" ([] : List PullRequest) =
          Except.error 0 ∧
        run_action (fun _ _ => "x") "md" ([] : List PullRequest)
            (fun s => [PublishAction.write_file s]) = Except.error 0 :=
  ⟨rfl, build_no_changes_clean_exit (fun _ _ => "x") "md" [] (fun s => [PublishAction.write_file s]) rfl⟩

/-- C7: parse_changelog leaves the builder's stored change list untouched — the
partition mutates only the deep copy taken at scripts/builders.py line 158 —
so a second render in another format sees the full original record list and
produces the same string as a render performed directly on the original
state. -/
theorem parse_changelog_preserves_change_list (st : BuilderState) (ft1 ft2 : String) :
    (parse_changelog_method st ft1).2.change_list = st.change_list ∧
      (parse_changelog_method (parse_changelog_method st ft1).2 ft2).1 =
        (parse_changelog_method st ft2).1 :=
  ⟨rfl, rfl⟩

/-- C8: the commit-message parse_changelog never consults the grouping
configuration: its output is invariant under arbitrary changes to the rule
list, the include-unlabeled flag and the unlabeled title, and always equals
the header followed by the flat list of commit lines in input order. -/
theorem commit_parse_ignores_group_config
    (hp release_version file_type fn : String) (change_list : List Commit)
    (gc gc' : List GroupConfig) (iu iu' : Bool) (ut ut' : String) :
    CommitMessageChangelogBuilder.parse_changelog
        (Configuration.mk hp gc iu ut fn) release_version file_type change_list =
        CommitMessageChangelogBuilder.parse_changelog
          (Configuration.mk hp gc' iu' ut' fn) release_version file_type change_list ∧
      CommitMessageChangelogBuilder.parse_changelog
          (Configuration.mk hp gc iu ut fn) release_version file_type change_list =
        changelog_header file_type (hp ++ " " ++ release_version) ++
          String.join (change_list.map
            (CommitMessageChangelogBuilder.get_changelog_line file_type)) :=
  ⟨rfl, rfl⟩

/-- C9: the commit fetch loop keeps exactly the commits whose message starts
with neither merge prefix, mapped to records in response order. -/
theorem merge_commit_filtering (response_data : List RawCommit) :
    commit_items response_data =
      (response_data.filter (fun item =>
          !(item.message.startsWith "Merge pull request #" ||
            item.message.startsWith "Merge branch"))).map
        (fun item => Commit.mk item.sha item.message item.html_url) := by
  induction response_data with
  | nil => rfl
  | cons a t ih =>
    by_cases h : (a.message.startsWith "Merge pull request #" ||
        a.message.startsWith "Merge branch") = true
    · rcases Bool.or_eq_true_iff.mp h with h1 | h1 <;>
        simp [commit_items, List.filter_cons, h, h1, ih]
    · obtain ⟨hA, hB⟩ := Bool.or_eq_false_iff.mp (Bool.eq_false_iff.mpr h)
      simp [commit_items, List.filter_cons, hA, hB, ih]

/-- C10: removing the short-circuit changes nothing observable: the non-empty
buckets, the final pool and the whole rendered document coincide with and
without the break. -/
theorem short_circuit_equivalence (config : Configuration)
    (release_version file_type : String) (change_list : List PullRequest) :
    (group_loop config.group_config change_list).1.filter (fun g => !g.2.isEmpty) =
        (group_loop_no_break config.group_config change_list).1.filter
          (fun g => !g.2.isEmpty) ∧
      (group_loop config.group_config change_list).2 =
        (group_loop_no_break config.group_config change_list).2 ∧
      PullRequestChangelogBuilder.parse_changelog config release_version file_type
          change_list =
        parse_changelog_no_break config release_version file_type change_list := by
  obtain ⟨h1, h2, h3⟩ := group_loop_no_break_equiv config.group_config change_list
  refine ⟨h1, h2, ?_⟩
  simp only [PullRequestChangelogBuilder.parse_changelog, parse_changelog_no_break]
  rw [h2, h3 file_type]

end ChangelogCI
